import Mathlib

/-!
Verification of the document-cache / chat-turn core of `app.py`
(a Streamlit chat front-end over a set of policy PDFs).

The embedding models:
* `load_docs_to_gemini` (app.py lines 90-144): scan `docs/*.pdf`, list the
  remote files, reuse handles by display name, upload missing files;
* the chat loop (app.py lines 158-205): payload composition, the one
  rate-limit retry, and the error branches;
* the conversation store (`st.session_state.messages`): the append and
  reset sites.

External effects (the remote listing, uploads and generation calls) are
supplied by environment records; the network calls an execution performs
are recorded explicitly so that claims about "no additional call" are
statable.
-/

namespace Aarp

/-- A remote file handle as returned by the service: an opaque identity and
the display name the service reports for it (`f.display_name` in app.py). -/
structure FileHandle where
  id : Nat
  display_name : String
deriving DecidableEq, Repr

/-- `os.path.basename`: the part of the path after the last `/`. -/
def basename (p : String) : String :=
  ⟨p.data.foldl (fun acc c => if c = '/' then [] else acc ++ [c]) []⟩

/-- The environment of one `load_docs_to_gemini` run: the outcome of the
`client.files.list()` call and, for each local path, the outcome of
`client.files.upload` on that path. -/
structure LoaderEnv where
  listResult : Except String (List FileHandle)
  upload : String → Except String FileHandle

/-- One `client.files.upload` network call as issued by app.py line 129:
the local path plus the request config (display name, MIME type). -/
structure UploadCall where
  path : String
  display_name : String
  mime_type : String
deriving DecidableEq, Repr

/-- The Python dict `existing_files_map` built at app.py lines 107-111 by
`existing_files_map[f.display_name] = f` over the listing: a later entry
with the same display name overwrites an earlier one. -/
def existingFilesMap (fs : List FileHandle) : String → Option FileHandle :=
  fs.foldl (fun m f => fun k => if k = f.display_name then some f else m k)
    (fun _ => none)

/-- Accumulated outcome of the per-file loop (app.py lines 116-141):
the handles appended to `uploaded_files`, the upload calls issued, and the
per-file `st.sidebar.error` messages. -/
structure ScanResult where
  handles : List FileHandle
  uploads : List UploadCall
  failures : List String
deriving Repr

/-- The per-file loop of `load_docs_to_gemini` (app.py lines 116-141): for
each path in scan order, reuse the mapped handle when the basename is in
`existing_files_map`, otherwise issue an upload with MIME type
`application/pdf`; an upload failure is reported and the file excluded. -/
def processFiles (env : LoaderEnv) (m : String → Option FileHandle) :
    List String → ScanResult
  | [] => ⟨[], [], []⟩
  | path :: rest =>
    let file_name := basename path
    let r := processFiles env m rest
    match m file_name with
    | some f => ⟨f :: r.handles, r.uploads, r.failures⟩
    | none =>
      match env.upload path with
      | .ok h =>
        ⟨h :: r.handles, ⟨path, file_name, "application/pdf"⟩ :: r.uploads,
          r.failures⟩
      | .error e =>
        ⟨r.handles, ⟨path, file_name, "application/pdf"⟩ :: r.uploads,
          ("Failed to load " ++ file_name ++ ": " ++ e) :: r.failures⟩

/-- Full outcome of one `load_docs_to_gemini` run: the returned list, the
upload calls performed, whether the listing call was performed, the
sidebar warnings, and the sidebar errors. -/
structure LoaderResult where
  uploaded_files : List FileHandle
  uploads : List UploadCall
  listed : Bool
  warnings : List String
  errors : List String
deriving Repr

/-- The try/except around the listing (app.py lines 107-113): on success
the lookup built from the listing and no warning, on failure the empty
lookup and the `Could not list existing files` warning. -/
def listingMap (env : LoaderEnv) : (String → Option FileHandle) × List String :=
  match env.listResult with
  | .ok fs => (existingFilesMap fs, [])
  | .error e => (fun _ => none, ["Could not list existing files: " ++ e])

/-- `load_docs_to_gemini` (app.py lines 90-144), with the directory scan
result `doc_paths` and the network outcomes passed in explicitly.
An empty scan returns `[]` with a sidebar error and no network call;
otherwise the remote listing is queried (a listing failure degrades to an
empty map with a warning) and each local file is processed in scan order. -/
def load_docs_to_gemini (env : LoaderEnv) (doc_paths : List String) :
    LoaderResult :=
  if doc_paths = [] then
    ⟨[], [], false, [], ["No PDF files found in 'docs/' folder."]⟩
  else
    let mw := listingMap env
    let s := processFiles env mw.1 doc_paths
    ⟨s.handles, s.uploads, true, mw.2, s.failures⟩

/-- Modelled from the spec: the `st.cache_resource` decorator on
`load_docs_to_gemini` (app.py line 90) is streamlit library code not in
this repository; per the spec it memoizes the loader for the process
lifetime — the first call runs the loader and stores its result, later
calls return the stored result without running the loader again. The
third component counts the network calls this invocation performs (the
listing call plus each upload call of a fresh run; none on a cache hit). -/
def cache_resource_call (f : Unit → LoaderResult)
    (cache : Option LoaderResult) : LoaderResult × Option LoaderResult × Nat :=
  match cache with
  | some r => (r, some r, 0)
  | none =>
    let r := f ()
    (r, some r, (if r.listed then 1 else 0) + r.uploads.length)

/-- One entry of `st.session_state.messages`: the dict
`{"role": ..., "content": ...}` appended at app.py lines 161, 186, 199. -/
structure Message where
  role : String
  content : String
deriving DecidableEq, Repr

/-- One part of the `contents` list handed to `generate_content`: either a
plain string or an uploaded file handle. -/
inductive Part where
  | text (s : String)
  | file (h : FileHandle)
deriving DecidableEq, Repr

/-- The fixed instruction preamble of app.py lines 170-174. -/
def preamble : List Part :=
  [ .text "You are a strict Medicaid Eligibility Assistant. Use the attached policy documents to answer.",
    .text "Cite the specific document name or section when possible.",
    .text "If the answer depends on a checked box, explicitly state that." ]

/-- The model string passed to both `generate_content` calls
(app.py lines 181 and 195). -/
def modelName : String := "gemini-3-flash-preview"

/-- The `content_payload` of app.py lines 170-176: the preamble, then
`docs_context` in order, then the prompt. -/
def content_payload (docs_context : List FileHandle) (prompt : String) :
    List Part :=
  preamble ++ docs_context.map Part.file ++ [Part.text prompt]

/-- One `client.models.generate_content` network call: the model string
and the `contents` list. -/
structure GenCall where
  model : String
  contents : List Part
deriving DecidableEq, Repr

/-- The rate-limit check of app.py line 190: `"429" in str(e)`. -/
def hasRateLimitMarker (e : String) : Bool :=
  decide ("429".toList <:+: e.toList)

/-- The last content written to the turn's output area: `markdown` for an
answer, `warning`/`error` for the failure notices. -/
inductive Display where
  | markdown (s : String)
  | warning (s : String)
  | error (s : String)
deriving DecidableEq, Repr

/-- The environment of one chat turn: `gen n` is the outcome of the n-th
`generate_content` call issued during the turn (`n = 0` the first attempt,
`n = 1` the retry). -/
structure ChatEnv where
  gen : Nat → Except String String

/-- Outcome of one chat turn: the messages list after the turn, the
generation calls issued, and the final user-visible output for the turn. -/
structure TurnResult where
  messages : List Message
  genCalls : List GenCall
  display : Display
deriving Repr

/-- The chat loop body (app.py lines 158-205) for one submitted prompt:
append the user turn; with documents loaded, issue one generation call on
the composed payload — on success append the assistant turn; on an error
carrying the `429` marker sleep and retry once with the identical payload
(a second failure shows the busy notice); any other error shows the
underlying message. With no documents, show the no-documents error. -/
def chat_turn (env : ChatEnv) (docs_context : List FileHandle)
    (messages : List Message) (prompt : String) : TurnResult :=
  let messages := messages ++ [⟨"user", prompt⟩]
  if docs_context ≠ [] then
    let payload := content_payload docs_context prompt
    match env.gen 0 with
    | .ok t =>
      ⟨messages ++ [⟨"assistant", t⟩], [⟨modelName, payload⟩], .markdown t⟩
    | .error e =>
      if hasRateLimitMarker e then
        match env.gen 1 with
        | .ok t =>
          ⟨messages ++ [⟨"assistant", t⟩],
            [⟨modelName, payload⟩, ⟨modelName, payload⟩], .markdown t⟩
        | .error _ =>
          ⟨messages, [⟨modelName, payload⟩, ⟨modelName, payload⟩],
            .error "System busy. Please try again in a moment."⟩
      else
        ⟨messages, [⟨modelName, payload⟩],
          .error ("An error occurred: " ++ e)⟩
  else
    ⟨messages, [], .error "System Error: No documents loaded."⟩

/-- The operations the script performs on `st.session_state.messages`:
an append of one `{role, content}` dict (app.py lines 161, 186, 199) or
the reset to `[]` (app.py line 219). -/
inductive ConvOp where
  | append (role : String) (content : String)
  | reset
deriving DecidableEq, Repr

/-- Effect of one conversation-store operation on the messages list. -/
def applyOp (messages : List Message) : ConvOp → List Message
  | .append r c => messages ++ [⟨r, c⟩]
  | .reset => []

/-! ### Helper characterizations of the loader loop -/

/-- The handle the loop produces for one local path: the mapped handle when
the basename is present in the lookup, otherwise the upload's result (none
when the upload fails). -/
def resolveLocal (env : LoaderEnv) (m : String → Option FileHandle)
    (p : String) : Option FileHandle :=
  match m (basename p) with
  | some f => some f
  | none => (env.upload p).toOption

/-- The sidebar error a failing upload of `p` produces, if any. -/
def uploadErrMsg (env : LoaderEnv) (p : String) : Option String :=
  match env.upload p with
  | .ok _ => none
  | .error e => some ("Failed to load " ++ basename p ++ ": " ++ e)

lemma processFiles_handles (env : LoaderEnv) (m : String → Option FileHandle)
    (ps : List String) :
    (processFiles env m ps).handles = ps.filterMap (resolveLocal env m) := by
  induction ps with
  | nil => rfl
  | cons p rest ih =>
    simp only [processFiles, List.filterMap_cons]
    cases hm : m (basename p) with
    | some f => simp [resolveLocal, hm, ih]
    | none =>
      cases hu : env.upload p with
      | ok h => simp [resolveLocal, hm, hu, Except.toOption, ih]
      | error e => simp [resolveLocal, hm, hu, Except.toOption, ih]

lemma processFiles_uploads (env : LoaderEnv) (m : String → Option FileHandle)
    (ps : List String) :
    (processFiles env m ps).uploads =
      (ps.filter fun p => (m (basename p)).isNone).map
        (fun p => ⟨p, basename p, "application/pdf"⟩) := by
  induction ps with
  | nil => rfl
  | cons p rest ih =>
    simp only [processFiles, List.filter_cons]
    cases hm : m (basename p) with
    | some f => simp [hm, ih]
    | none =>
      cases hu : env.upload p with
      | ok h => simp [hm, hu, ih]
      | error e => simp [hm, hu, ih]

lemma processFiles_failures (env : LoaderEnv) (m : String → Option FileHandle)
    (ps : List String) :
    (processFiles env m ps).failures =
      ps.filterMap (fun p =>
        if (m (basename p)).isSome then none else uploadErrMsg env p) := by
  induction ps with
  | nil => rfl
  | cons p rest ih =>
    simp only [processFiles, List.filterMap_cons]
    cases hm : m (basename p) with
    | some f => simp [hm, ih]
    | none =>
      cases hu : env.upload p with
      | ok h => simp [hm, hu, ih, uploadErrMsg]
      | error e => simp [hm, hu, ih, uploadErrMsg]

lemma existingFilesMap_display (fs : List FileHandle) :
    ∀ k f, existingFilesMap fs k = some f → f.display_name = k := by
  have step : ∀ (m0 : String → Option FileHandle),
      (∀ k f, m0 k = some f → f.display_name = k) →
      ∀ k f,
        (fs.foldl
          (fun m f => fun k => if k = f.display_name then some f else m k)
          m0) k = some f → f.display_name = k := by
    induction fs with
    | nil => intro m0 h0; exact h0
    | cons g rest ih =>
      intro m0 h0
      refine ih _ ?_
      intro k f h
      by_cases hk : k = g.display_name
      · simp [hk] at h
        rw [← h, hk]
      · simp [hk] at h
        exact h0 k f h
  exact step _ (by intro k f h; simp at h)

lemma filterMap_eq_map_of_forall {α β : Type} (f : α → Option β) (g : α → β)
    (l : List α) (h : ∀ a ∈ l, f a = some (g a)) :
    l.filterMap f = l.map g := by
  induction l with
  | nil => rfl
  | cons a rest ih =>
    simp only [List.filterMap_cons, List.map_cons, h a (by simp)]
    rw [ih (fun b hb => h b (by simp [hb]))]

lemma listingMap_display (env : LoaderEnv) :
    ∀ k f, (listingMap env).1 k = some f → f.display_name = k := by
  intro k f h
  cases hl : env.listResult with
  | ok fs =>
    rw [listingMap, hl] at h
    exact existingFilesMap_display fs k f h
  | error e => rw [listingMap, hl] at h; exact absurd h (by simp)

/-! ### Claim theorems -/

/-- C1: for every local PDF set and remote listing state, the cache build
processes local files in scan order, reusing the listed handle when the
basename is in the display-name lookup and uploading with MIME type
`application/pdf` otherwise; the result has exactly one handle per distinct
local display name, in scan order, and no upload is performed for a name
already present remotely. (Stated under the attainable-input assumptions
that uploads succeed — per-file failure is claim C8 — and that local
basenames are pairwise distinct, which a scan of one directory guarantees.) -/
theorem C1_cache_build_reconciles (env : LoaderEnv) (doc_paths : List String)
    (u : String → FileHandle)
    (hup : ∀ p ∈ doc_paths, env.upload p = .ok (u p))
    (hname : ∀ p ∈ doc_paths, (u p).display_name = basename p)
    (hnodup : (doc_paths.map basename).Nodup) :
    (load_docs_to_gemini env doc_paths).uploaded_files =
      doc_paths.map (fun p => ((listingMap env).1 (basename p)).getD (u p)) ∧
    (load_docs_to_gemini env doc_paths).uploads =
      (doc_paths.filter fun p => ((listingMap env).1 (basename p)).isNone).map
        (fun p => ⟨p, basename p, "application/pdf"⟩) ∧
    (load_docs_to_gemini env doc_paths).uploaded_files.map
      (fun h => h.display_name) = doc_paths.map basename ∧
    (∀ n ∈ doc_paths.map basename,
      ((load_docs_to_gemini env doc_paths).uploaded_files.map
        (fun h => h.display_name)).count n = 1) ∧
    (∀ p ∈ doc_paths, ((listingMap env).1 (basename p)).isSome →
      ∀ c ∈ (load_docs_to_gemini env doc_paths).uploads, c.path ≠ p) := by
  by_cases hps : doc_paths = []
  · subst hps
    refine ⟨rfl, rfl, rfl, ?_, ?_⟩ <;> simp
  · have hload : load_docs_to_gemini env doc_paths =
        ⟨(processFiles env (listingMap env).1 doc_paths).handles,
          (processFiles env (listingMap env).1 doc_paths).uploads, true,
          (listingMap env).2,
          (processFiles env (listingMap env).1 doc_paths).failures⟩ := by
      rw [load_docs_to_gemini, if_neg hps]
    have h1 : (load_docs_to_gemini env doc_paths).uploaded_files =
        doc_paths.map
          (fun p => ((listingMap env).1 (basename p)).getD (u p)) := by
      rw [hload]
      show (processFiles env (listingMap env).1 doc_paths).handles = _
      rw [processFiles_handles]
      refine filterMap_eq_map_of_forall _ _ _ ?_
      intro p hp
      rw [resolveLocal]
      cases hm : (listingMap env).1 (basename p) with
      | some f => simp
      | none => simp [hup p hp, Except.toOption]
    have h2 : (load_docs_to_gemini env doc_paths).uploads =
        (doc_paths.filter fun p =>
          ((listingMap env).1 (basename p)).isNone).map
          (fun p => ⟨p, basename p, "application/pdf"⟩) := by
      rw [hload]
      show (processFiles env (listingMap env).1 doc_paths).uploads = _
      rw [processFiles_uploads]
    have h3 : (load_docs_to_gemini env doc_paths).uploaded_files.map
        (fun h => h.display_name) = doc_paths.map basename := by
      rw [h1, List.map_map]
      refine List.map_congr_left ?_
      intro p hp
      cases hm : (listingMap env).1 (basename p) with
      | some f =>
        simp only [Function.comp_apply, hm, Option.getD_some]
        exact listingMap_display env (basename p) f hm
      | none =>
        simp only [Function.comp_apply, hm, Option.getD_none]
        exact hname p hp
    refine ⟨h1, h2, h3, ?_, ?_⟩
    · intro n hn
      rw [h3]
      exact List.count_eq_one_of_mem hnodup hn
    · intro p hp hsome c hc hpath
      rw [h2] at hc
      obtain ⟨q, hq, hcq⟩ := List.mem_map.mp hc
      obtain ⟨hqmem, hqnone⟩ := List.mem_filter.mp hq
      have : q = p := by rw [← hpath, ← hcq]
      subst this
      rw [Option.isSome_iff_exists] at hsome
      obtain ⟨f, hf⟩ := hsome
      simp [hf] at hqnone

/-- Scenario environment: the remote listing already holds `a.pdf` (id 0);
every upload succeeds and returns id 7 with the requested display name. -/
def envA : LoaderEnv :=
  ⟨.ok [⟨0, "a.pdf"⟩], fun p => .ok ⟨7, basename p⟩⟩

/-- The handle the scenario's uploads return for a path. -/
def uA : String → FileHandle := fun p => ⟨7, basename p⟩

/-- Scenario local scan: `docs/a.pdf` then `docs/b.pdf`. -/
def pathsA : List String := ["docs/a.pdf", "docs/b.pdf"]

/-- Witness for C1 at the spec scenario (`a.pdf` already remote,
`b.pdf` fresh): the hypotheses hold and only `b.pdf` is uploaded, with the
result `[a.pdf-handle, b.pdf-handle]` in local scan order. -/
theorem C1_cache_build_reconciles_witness :
    (∀ p ∈ pathsA, envA.upload p = .ok (uA p)) ∧
    (∀ p ∈ pathsA, (uA p).display_name = basename p) ∧
    (pathsA.map basename).Nodup ∧
    (load_docs_to_gemini envA pathsA).uploaded_files =
      pathsA.map (fun p => ((listingMap envA).1 (basename p)).getD (uA p)) ∧
    (load_docs_to_gemini envA pathsA).uploaded_files =
      [⟨0, "a.pdf"⟩, ⟨7, "b.pdf"⟩] ∧
    (load_docs_to_gemini envA pathsA).uploads =
      [⟨"docs/b.pdf", "b.pdf", "application/pdf"⟩] :=
  ⟨fun p _ => rfl, fun p _ => rfl, by decide,
    (C1_cache_build_reconciles envA pathsA uA (fun p _ => rfl)
      (fun p _ => rfl) (by decide)).1,
    by decide, by decide⟩

/-! ### Branch computations of the chat turn -/

lemma chat_turn_ok (env : ChatEnv) (docs : List FileHandle)
    (msgs : List Message) (prompt t : String)
    (hdocs : docs ≠ []) (h : env.gen 0 = .ok t) :
    chat_turn env docs msgs prompt =
      ⟨msgs ++ [⟨"user", prompt⟩, ⟨"assistant", t⟩],
        [⟨modelName, content_payload docs prompt⟩], .markdown t⟩ := by
  simp [chat_turn, hdocs, h]

lemma chat_turn_err_nomarker (env : ChatEnv) (docs : List FileHandle)
    (msgs : List Message) (prompt e : String)
    (hdocs : docs ≠ []) (h : env.gen 0 = .error e)
    (hm : hasRateLimitMarker e = false) :
    chat_turn env docs msgs prompt =
      ⟨msgs ++ [⟨"user", prompt⟩],
        [⟨modelName, content_payload docs prompt⟩],
        .error ("An error occurred: " ++ e)⟩ := by
  simp [chat_turn, hdocs, h, hm]

lemma chat_turn_retry_ok (env : ChatEnv) (docs : List FileHandle)
    (msgs : List Message) (prompt e t : String)
    (hdocs : docs ≠ []) (h : env.gen 0 = .error e)
    (hm : hasRateLimitMarker e = true) (h1 : env.gen 1 = .ok t) :
    chat_turn env docs msgs prompt =
      ⟨msgs ++ [⟨"user", prompt⟩, ⟨"assistant", t⟩],
        [⟨modelName, content_payload docs prompt⟩,
         ⟨modelName, content_payload docs prompt⟩], .markdown t⟩ := by
  simp [chat_turn, hdocs, h, hm, h1]

lemma chat_turn_retry_err (env : ChatEnv) (docs : List FileHandle)
    (msgs : List Message) (prompt e e2 : String)
    (hdocs : docs ≠ []) (h : env.gen 0 = .error e)
    (hm : hasRateLimitMarker e = true) (h1 : env.gen 1 = .error e2) :
    chat_turn env docs msgs prompt =
      ⟨msgs ++ [⟨"user", prompt⟩],
        [⟨modelName, content_payload docs prompt⟩,
         ⟨modelName, content_payload docs prompt⟩],
        .error "System busy. Please try again in a moment."⟩ := by
  simp [chat_turn, hdocs, h, hm, h1]

lemma chat_turn_nodocs (env : ChatEnv) (msgs : List Message)
    (prompt : String) :
    chat_turn env [] msgs prompt =
      ⟨msgs ++ [⟨"user", prompt⟩], [],
        .error "System Error: No documents loaded."⟩ := by
  simp [chat_turn]

lemma chat_turn_genCalls_le_two (env : ChatEnv) (docs : List FileHandle)
    (msgs : List Message) (prompt : String) :
    (chat_turn env docs msgs prompt).genCalls.length ≤ 2 := by
  by_cases hdocs : docs = []
  · subst hdocs; rw [chat_turn_nodocs]; simp
  · cases h : env.gen 0 with
    | ok t => rw [chat_turn_ok env docs msgs prompt t hdocs h]; simp
    | error e =>
      cases hm : hasRateLimitMarker e with
      | false =>
        rw [chat_turn_err_nomarker env docs msgs prompt e hdocs h hm]; simp
      | true =>
        cases h1 : env.gen 1 with
        | ok t =>
          rw [chat_turn_retry_ok env docs msgs prompt e t hdocs h hm h1]; simp
        | error e2 =>
          rw [chat_turn_retry_err env docs msgs prompt e e2 hdocs h hm h1]
          simp

/-- C2: a rate-limited first call (error text carrying the `429` marker)
leads to exactly one retry with the identical model and payload; a
successful retry's text becomes the turn's answer; a non-rate-limit error
triggers no retry; and no execution of a turn ever issues more than two
generation calls. -/
theorem C2_rate_limit_retry (env : ChatEnv) (docs : List FileHandle)
    (msgs : List Message) (prompt e : String)
    (hdocs : docs ≠ []) (he : env.gen 0 = .error e) :
    (hasRateLimitMarker e = true →
      (chat_turn env docs msgs prompt).genCalls =
        [⟨modelName, content_payload docs prompt⟩,
         ⟨modelName, content_payload docs prompt⟩] ∧
      ∀ t, env.gen 1 = .ok t →
        (chat_turn env docs msgs prompt).display = .markdown t ∧
        (chat_turn env docs msgs prompt).messages =
          msgs ++ [⟨"user", prompt⟩, ⟨"assistant", t⟩]) ∧
    (hasRateLimitMarker e = false →
      (chat_turn env docs msgs prompt).genCalls =
        [⟨modelName, content_payload docs prompt⟩]) ∧
    (∀ (env2 : ChatEnv) (docs2 : List FileHandle) (msgs2 : List Message)
      (prompt2 : String),
      (chat_turn env2 docs2 msgs2 prompt2).genCalls.length ≤ 2) := by
  refine ⟨?_, ?_, chat_turn_genCalls_le_two⟩
  · intro hm
    constructor
    · cases h1 : env.gen 1 with
      | ok t => rw [chat_turn_retry_ok env docs msgs prompt e t hdocs he hm h1]
      | error e2 =>
        rw [chat_turn_retry_err env docs msgs prompt e e2 hdocs he hm h1]
    · intro t h1
      rw [chat_turn_retry_ok env docs msgs prompt e t hdocs he hm h1]
      exact ⟨rfl, rfl⟩
  · intro hm
    rw [chat_turn_err_nomarker env docs msgs prompt e hdocs he hm]

/-- Chat environment for the retry scenario: the first generation call
fails with a 429 error, the retry succeeds. -/
def envRetry : ChatEnv :=
  ⟨fun n => if n = 0 then .error "429 RESOURCE_EXHAUSTED" else .ok "the answer"⟩

/-- Witness for C2: in `envRetry` with one loaded document, the turn makes
exactly two identical calls and records the retry's text as the answer. -/
theorem C2_rate_limit_retry_witness :
    ([⟨0, "a.pdf"⟩] : List FileHandle) ≠ [] ∧
    envRetry.gen 0 = .error "429 RESOURCE_EXHAUSTED" ∧
    hasRateLimitMarker "429 RESOURCE_EXHAUSTED" = true ∧
    envRetry.gen 1 = .ok "the answer" ∧
    (chat_turn envRetry [⟨0, "a.pdf"⟩] [] "q").genCalls =
      [⟨modelName, content_payload [⟨0, "a.pdf"⟩] "q"⟩,
       ⟨modelName, content_payload [⟨0, "a.pdf"⟩] "q"⟩] ∧
    (chat_turn envRetry [⟨0, "a.pdf"⟩] [] "q").display =
      .markdown "the answer" :=
  ⟨by decide, rfl, by decide, rfl,
    ((C2_rate_limit_retry envRetry [⟨0, "a.pdf"⟩] [] "q"
      "429 RESOURCE_EXHAUSTED" (by decide) rfl).1 (by decide)).1,
    (((C2_rate_limit_retry envRetry [⟨0, "a.pdf"⟩] [] "q"
      "429 RESOURCE_EXHAUSTED" (by decide) rfl).1 (by decide)).2
      "the answer" rfl).1⟩

/-- C3: a terminally failing turn (non-rate-limit error, or a rate-limited
call whose single retry also fails) records an error as the turn's output —
with the underlying message surfaced for non-rate-limit errors — and the
messages list still contains every preceding turn unmodified (the new list
is the old list plus only the user turn). -/
theorem C3_terminal_failure (env : ChatEnv) (docs : List FileHandle)
    (msgs : List Message) (prompt e : String)
    (hdocs : docs ≠ []) (he : env.gen 0 = .error e) :
    (hasRateLimitMarker e = false →
      (chat_turn env docs msgs prompt).display =
        .error ("An error occurred: " ++ e) ∧
      (chat_turn env docs msgs prompt).messages =
        msgs ++ [⟨"user", prompt⟩]) ∧
    (∀ e2, hasRateLimitMarker e = true → env.gen 1 = .error e2 →
      (chat_turn env docs msgs prompt).display =
        .error "System busy. Please try again in a moment." ∧
      (chat_turn env docs msgs prompt).messages =
        msgs ++ [⟨"user", prompt⟩]) := by
  constructor
  · intro hm
    rw [chat_turn_err_nomarker env docs msgs prompt e hdocs he hm]
    exact ⟨rfl, rfl⟩
  · intro e2 hm h1
    rw [chat_turn_retry_err env docs msgs prompt e e2 hdocs he hm h1]
    exact ⟨rfl, rfl⟩

/-- Chat environment in which every generation call fails with an error
that does not carry the rate-limit marker. -/
def envBroken : ChatEnv := ⟨fun _ => .error "invalid argument"⟩

/-- Witness for C3: in `envBroken` a turn over one document and one prior
message shows the underlying error and leaves the prior message intact. -/
theorem C3_terminal_failure_witness :
    ([⟨0, "a.pdf"⟩] : List FileHandle) ≠ [] ∧
    envBroken.gen 0 = .error "invalid argument" ∧
    hasRateLimitMarker "invalid argument" = false ∧
    (chat_turn envBroken [⟨0, "a.pdf"⟩] [⟨"user", "hi"⟩] "q").display =
      .error ("An error occurred: " ++ "invalid argument") ∧
    (chat_turn envBroken [⟨0, "a.pdf"⟩] [⟨"user", "hi"⟩] "q").messages =
      [⟨"user", "hi"⟩] ++ [⟨"user", "q"⟩] :=
  ⟨by decide, rfl, by decide,
    (C3_terminal_failure envBroken [⟨0, "a.pdf"⟩] [⟨"user", "hi"⟩] "q"
      "invalid argument" (by decide) rfl).1 (by decide)⟩

/-- C4: with a non-empty document cache, a successful question composes
exactly one generation request whose contents are the instruction preamble,
then the document handles in order, then the question; and the messages
list gains exactly the user turn followed by the assistant turn. -/
theorem C4_payload_and_success (env : ChatEnv) (docs : List FileHandle)
    (msgs : List Message) (prompt t : String)
    (hdocs : docs ≠ []) (hok : env.gen 0 = .ok t) :
    (chat_turn env docs msgs prompt).genCalls =
      [⟨modelName, preamble ++ docs.map Part.file ++ [Part.text prompt]⟩] ∧
    (chat_turn env docs msgs prompt).messages =
      msgs ++ [⟨"user", prompt⟩, ⟨"assistant", t⟩] := by
  rw [chat_turn_ok env docs msgs prompt t hdocs hok]
  exact ⟨rfl, rfl⟩

/-- Chat environment where the first generation call succeeds. -/
def envOk : ChatEnv := ⟨fun _ => .ok "Yes, see form PA-600, section 3."⟩

/-- Witness for C4 at the spec scenario: two documents, one call whose
payload is preamble + both handles + question, two appended turns. -/
theorem C4_payload_and_success_witness :
    ([⟨0, "a.pdf"⟩, ⟨1, "b.pdf"⟩] : List FileHandle) ≠ [] ∧
    envOk.gen 0 = .ok "Yes, see form PA-600, section 3." ∧
    (chat_turn envOk [⟨0, "a.pdf"⟩, ⟨1, "b.pdf"⟩] []
      "Am I eligible if I checked box 3?").genCalls =
      [⟨modelName, preamble ++
        [Part.file ⟨0, "a.pdf"⟩, Part.file ⟨1, "b.pdf"⟩] ++
        [Part.text "Am I eligible if I checked box 3?"]⟩] ∧
    (chat_turn envOk [⟨0, "a.pdf"⟩, ⟨1, "b.pdf"⟩] []
      "Am I eligible if I checked box 3?").messages =
      [⟨"user", "Am I eligible if I checked box 3?"⟩,
       ⟨"assistant", "Yes, see form PA-600, section 3."⟩] :=
  ⟨by decide, rfl,
    (C4_payload_and_success envOk [⟨0, "a.pdf"⟩, ⟨1, "b.pdf"⟩] []
      "Am I eligible if I checked box 3?" "Yes, see form PA-600, section 3."
      (by decide) rfl).1,
    (C4_payload_and_success envOk [⟨0, "a.pdf"⟩, ⟨1, "b.pdf"⟩] []
      "Am I eligible if I checked box 3?" "Yes, see form PA-600, section 3."
      (by decide) rfl).2⟩

/-- C10: with an empty document cache a submitted question still appends
the user turn before question-answering is refused — the store grows by
exactly one user turn, no generation call is made, no assistant turn is
paired — so two such questions in a row leave two consecutive user turns. -/
theorem C10_empty_docs_appends_user (env env2 : ChatEnv)
    (msgs : List Message) (p1 p2 : String) :
    (chat_turn env [] msgs p1).messages = msgs ++ [⟨"user", p1⟩] ∧
    (chat_turn env [] msgs p1).genCalls = [] ∧
    (chat_turn env [] msgs p1).display =
      .error "System Error: No documents loaded." ∧
    (chat_turn env2 [] (chat_turn env [] msgs p1).messages p2).messages =
      msgs ++ [⟨"user", p1⟩, ⟨"user", p2⟩] := by
  rw [chat_turn_nodocs env msgs p1]
  refine ⟨rfl, rfl, rfl, ?_⟩
  rw [chat_turn_nodocs env2 (msgs ++ [(⟨"user", p1⟩ : Message)]) p2,
    List.append_assoc]
  rfl

/-- C6: the conversation store is append-only except for full reset —
every operation the script performs either appends one `{role, text}` turn
at the end or clears the store; an append never changes or reorders the
existing turns; reset is idempotent and its next read is empty; and every
chat turn only extends the existing list. -/
theorem C6_store_append_only (msgs : List Message) (op : ConvOp)
    (env : ChatEnv) (docs : List FileHandle) (prompt : String) :
    ((∃ t, applyOp msgs op = msgs ++ [t]) ∨ applyOp msgs op = []) ∧
    (∀ r c i, i < msgs.length →
      (applyOp msgs (.append r c))[i]? = msgs[i]?) ∧
    applyOp (applyOp msgs .reset) .reset = applyOp msgs .reset ∧
    applyOp msgs .reset = [] ∧
    (∃ suffix, (chat_turn env docs msgs prompt).messages = msgs ++ suffix) := by
  refine ⟨?_, ?_, rfl, rfl, ?_⟩
  · cases op with
    | append r c => exact .inl ⟨⟨r, c⟩, rfl⟩
    | reset => exact .inr rfl
  · intro r c i hi
    exact List.getElem?_append_left hi
  · by_cases hdocs : docs = []
    · subst hdocs
      rw [chat_turn_nodocs]
      exact ⟨[⟨"user", prompt⟩], rfl⟩
    · cases h : env.gen 0 with
      | ok t =>
        rw [chat_turn_ok env docs msgs prompt t hdocs h]
        exact ⟨[⟨"user", prompt⟩, ⟨"assistant", t⟩], rfl⟩
      | error e =>
        cases hm : hasRateLimitMarker e with
        | false =>
          rw [chat_turn_err_nomarker env docs msgs prompt e hdocs h hm]
          exact ⟨[⟨"user", prompt⟩], rfl⟩
        | true =>
          cases h1 : env.gen 1 with
          | ok t =>
            rw [chat_turn_retry_ok env docs msgs prompt e t hdocs h hm h1]
            exact ⟨[⟨"user", prompt⟩, ⟨"assistant", t⟩], rfl⟩
          | error e2 =>
            rw [chat_turn_retry_err env docs msgs prompt e e2 hdocs h hm h1]
            exact ⟨[⟨"user", prompt⟩], rfl⟩

/-- C7: an empty directory scan makes the cache build report the
empty-corpus error and return the empty sequence with no network call
(no listing, no upload); a question asked with that empty cache issues no
generation call and shows the no-documents error instead of an answer. -/
theorem C7_empty_corpus (env : LoaderEnv) (cenv : ChatEnv)
    (msgs : List Message) (prompt : String) :
    load_docs_to_gemini env [] =
      ⟨[], [], false, [], ["No PDF files found in 'docs/' folder."]⟩ ∧
    (chat_turn cenv (load_docs_to_gemini env []).uploaded_files msgs
      prompt).genCalls = [] ∧
    (chat_turn cenv (load_docs_to_gemini env []).uploaded_files msgs
      prompt).display = .error "System Error: No documents loaded." := by
  refine ⟨rfl, ?_, ?_⟩
  · show (chat_turn cenv [] msgs prompt).genCalls = []
    rw [chat_turn_nodocs]
  · show (chat_turn cenv [] msgs prompt).display = _
    rw [chat_turn_nodocs]

/-- C5: cache build is idempotent within a process — under the memoizing
decorator, a second invocation returns the very result stored by the
first and performs zero network calls. -/
theorem C5_cache_idempotent (env : LoaderEnv) (doc_paths : List String) :
    (cache_resource_call (fun _ => load_docs_to_gemini env doc_paths)
      (cache_resource_call (fun _ => load_docs_to_gemini env doc_paths)
        none).2.1).1 =
      (cache_resource_call (fun _ => load_docs_to_gemini env doc_paths)
        none).1 ∧
    (cache_resource_call (fun _ => load_docs_to_gemini env doc_paths)
      (cache_resource_call (fun _ => load_docs_to_gemini env doc_paths)
        none).2.1).2.2 = 0 :=
  ⟨rfl, rfl⟩

/-- C8: a single file whose processing fails (its upload raises) is
reported via the per-file error message and excluded from the returned
handles, while the loader continues with every other file — the result is
the resolved handles of the files before it followed by those after it. -/
theorem C8_per_file_failure (env : LoaderEnv) (pre post : List String)
    (p e : String)
    (hm : (listingMap env).1 (basename p) = none)
    (herr : env.upload p = .error e) :
    resolveLocal env (listingMap env).1 p = none ∧
    (load_docs_to_gemini env (pre ++ p :: post)).uploaded_files =
      pre.filterMap (resolveLocal env (listingMap env).1) ++
      post.filterMap (resolveLocal env (listingMap env).1) ∧
    ("Failed to load " ++ basename p ++ ": " ++ e) ∈
      (load_docs_to_gemini env (pre ++ p :: post)).errors := by
  have hres : resolveLocal env (listingMap env).1 p = none := by
    rw [resolveLocal, hm, herr]
    rfl
  have hne : pre ++ p :: post ≠ [] := by simp
  have hload : load_docs_to_gemini env (pre ++ p :: post) =
      ⟨(processFiles env (listingMap env).1 (pre ++ p :: post)).handles,
        (processFiles env (listingMap env).1 (pre ++ p :: post)).uploads,
        true, (listingMap env).2,
        (processFiles env (listingMap env).1 (pre ++ p :: post)).failures⟩ := by
    rw [load_docs_to_gemini, if_neg hne]
  refine ⟨hres, ?_, ?_⟩
  · rw [hload]
    show (processFiles env (listingMap env).1 (pre ++ p :: post)).handles = _
    rw [processFiles_handles, List.filterMap_append, List.filterMap_cons,
      hres]
  · rw [hload]
    show _ ∈ (processFiles env (listingMap env).1 (pre ++ p :: post)).failures
    rw [processFiles_failures]
    refine List.mem_filterMap.mpr ⟨p, by simp, ?_⟩
    rw [hm]
    show uploadErrMsg env p = _
    rw [uploadErrMsg, herr]

/-- Loader environment for C8's witness: the remote listing is empty and
the upload of `docs/bad.pdf` fails while every other upload succeeds. -/
def envB : LoaderEnv :=
  ⟨.ok [],
    fun p =>
      if p = "docs/bad.pdf" then .error "quota" else .ok ⟨9, basename p⟩⟩

/-- Witness for C8: with `docs/bad.pdf` failing between `docs/a.pdf` and
`docs/c.pdf`, the result keeps the two successful handles, in order, and
records the per-file error. -/
theorem C8_per_file_failure_witness :
    (listingMap envB).1 (basename "docs/bad.pdf") = none ∧
    envB.upload "docs/bad.pdf" = .error "quota" ∧
    (load_docs_to_gemini envB
      (["docs/a.pdf"] ++ "docs/bad.pdf" :: ["docs/c.pdf"])).uploaded_files =
      ["docs/a.pdf"].filterMap (resolveLocal envB (listingMap envB).1) ++
      ["docs/c.pdf"].filterMap (resolveLocal envB (listingMap envB).1) ∧
    (load_docs_to_gemini envB
      ["docs/a.pdf", "docs/bad.pdf", "docs/c.pdf"]).uploaded_files =
      [⟨9, "a.pdf"⟩, ⟨9, "c.pdf"⟩] ∧
    ("Failed to load " ++ basename "docs/bad.pdf" ++ ": " ++ "quota") ∈
      (load_docs_to_gemini envB
        (["docs/a.pdf"] ++ "docs/bad.pdf" :: ["docs/c.pdf"])).errors :=
  ⟨rfl, rfl,
    (C8_per_file_failure envB ["docs/a.pdf"] ["docs/c.pdf"] "docs/bad.pdf"
      "quota" rfl rfl).2.1,
    by decide,
    (C8_per_file_failure envB ["docs/a.pdf"] ["docs/c.pdf"] "docs/bad.pdf"
      "quota" rfl rfl).2.2⟩

/-- C9: when the remote listing query fails, the cache build emits the
non-fatal warning and proceeds with an empty lookup, so every local file
is uploaded rather than the build aborting. -/
theorem C9_listing_failure_degrades (env : LoaderEnv)
    (doc_paths : List String) (e : String)
    (hlist : env.listResult = .error e) (hne : doc_paths ≠ []) :
    (load_docs_to_gemini env doc_paths).warnings =
      ["Could not list existing files: " ++ e] ∧
    (load_docs_to_gemini env doc_paths).uploads =
      doc_paths.map (fun p => ⟨p, basename p, "application/pdf"⟩) := by
  have hmap : listingMap env =
      (fun _ => none, ["Could not list existing files: " ++ e]) := by
    rw [listingMap, hlist]
  have hload : load_docs_to_gemini env doc_paths =
      ⟨(processFiles env (listingMap env).1 doc_paths).handles,
        (processFiles env (listingMap env).1 doc_paths).uploads,
        true, (listingMap env).2,
        (processFiles env (listingMap env).1 doc_paths).failures⟩ := by
    rw [load_docs_to_gemini, if_neg hne]
  constructor
  · rw [hload]
    show (listingMap env).2 = _
    rw [hmap]
  · rw [hload]
    show (processFiles env (listingMap env).1 doc_paths).uploads = _
    rw [processFiles_uploads, hmap]
    simp

/-- Loader environment for C9's witness: the listing call fails, uploads
succeed. -/
def envC : LoaderEnv :=
  ⟨.error "503 unavailable", fun p => .ok ⟨3, basename p⟩⟩

/-- Witness for C9: with the listing down, both scenario files are
uploaded and the warning is recorded. -/
theorem C9_listing_failure_degrades_witness :
    envC.listResult = .error "503 unavailable" ∧
    pathsA ≠ [] ∧
    (load_docs_to_gemini envC pathsA).warnings =
      ["Could not list existing files: " ++ "503 unavailable"] ∧
    (load_docs_to_gemini envC pathsA).uploads =
      pathsA.map (fun p => ⟨p, basename p, "application/pdf"⟩) ∧
    (load_docs_to_gemini envC pathsA).uploads =
      [⟨"docs/a.pdf", "a.pdf", "application/pdf"⟩,
       ⟨"docs/b.pdf", "b.pdf", "application/pdf"⟩] :=
  ⟨rfl, by decide,
    (C9_listing_failure_degrades envC pathsA "503 unavailable" rfl
      (by decide)).1,
    (C9_listing_failure_degrades envC pathsA "503 unavailable" rfl
      (by decide)).2,
    by decide⟩

end Aarp
